import Mathlib

/-!
Verification of the outlook-mcp adapter against its design description.

The development shallowly embeds the parts of the code base that the checked
properties talk about:

* `Json` models the Python dict/list/scalar values exchanged with the Graph
  API (objects keep insertion order, as Python dicts do);
* `remove_null_from_schema` is the schema sanitizer of `src/main.py`;
* `OutlookClient.request` is the authenticated HTTP wrapper of
  `src/client.py`, with the HTTP transport abstracted as a map from the call
  index to the `Response` it yields;
* the tool functions (`send_email`, `list_messages`, `update_email`, …) are
  translated statement by statement from `src/tools/*.py`, with the Graph
  client, the file system and the base64 codec abstracted as oracles so that
  every outcome of a call can be quantified over;
* `create_dynamic_wrapper` models the manifest dispatcher's wrapper
  generation from `src/main.py` over an abstract Python-function record.

Machine integers do not occur (all counts are small Nats), and everything is
a computable `def`, so each theorem can be evaluated on concrete inputs.
-/

/-- JSON-like values as passed between the tools and the Graph client.
An object is its entry list in insertion order; Python dicts built by the
code never hold a key twice, and lookups take the first match. -/
inductive Json where
  | null
  | bool (b : Bool)
  | num (n : Int)
  | str (s : String)
  | arr (elems : List Json)
  | obj (entries : List (String × Json))

mutual

/-- Structural equality test, playing the role of Python `==` on the values
the code compares (the code only ever compares against scalars). -/
def Json.beq : Json → Json → Bool
  | .null, .null => true
  | .bool a, .bool b => a == b
  | .num a, .num b => a == b
  | .str a, .str b => a == b
  | .arr a, .arr b => Json.beqList a b
  | .obj a, .obj b => Json.beqEntries a b
  | _, _ => false
termination_by structural j => j

def Json.beqList : List Json → List Json → Bool
  | [], [] => true
  | x :: xs, y :: ys => Json.beq x y && Json.beqList xs ys
  | _, _ => false
termination_by structural l => l

def Json.beqEntries : List (String × Json) → List (String × Json) → Bool
  | [], [] => true
  | (k, v) :: xs, (l, w) :: ys => k == l && Json.beq v w && Json.beqEntries xs ys
  | _, _ => false
termination_by structural l => l

end

/-- `isinstance(value, list)`. -/
def Json.isArr : Json → Bool
  | .arr _ => true
  | _ => false

/-- `value is None`. -/
def Json.isNull : Json → Bool
  | .null => true
  | _ => false

/-- The element list of an array value (only consulted under an `isArr`
guard, mirroring Python's `isinstance` checks). -/
def Json.asArr : Json → List Json
  | .arr xs => xs
  | _ => []

/-- The entry list of an object value. -/
def Json.asObj : Json → List (String × Json)
  | .obj kvs => kvs
  | _ => []

/-- First-match association lookup: Python `dict.get(k)` returning `None`
when the key is absent. -/
def jGet (kvs : List (String × Json)) (k : String) : Option Json :=
  match kvs with
  | [] => none
  | (k', v) :: rest => if k' == k then some v else jGet rest k

/-- Python `dict.get(k, d)`. -/
def jGetD (kvs : List (String × Json)) (k : String) (d : Json) : Json :=
  (jGet kvs k).getD d

/-- Python `k in dict`. -/
def jHasKey (kvs : List (String × Json)) (k : String) : Bool :=
  (jGet kvs k).isSome

/-- Python dict assignment `d[k] = v`: an existing key keeps its position
and takes the new value, a fresh key is appended. -/
def setKey : List (String × Json) → String → Json → List (String × Json)
  | [], k, v => [(k, v)]
  | (k', v') :: rest, k, v =>
      if k' == k then (k, v) :: rest else (k', v') :: setKey rest k v

/-- Python `dict.update(src)`: assign every entry of `src` in order. -/
def mergeObj (acc src : List (String × Json)) : List (String × Json) :=
  src.foldl (fun a p => setKey a p.1 p.2) acc

/-- Python truthiness of a value (`if result:` and friends). -/
def pyTruthy : Json → Bool
  | .null => false
  | .bool b => b
  | .num n => !(n == 0)
  | .str s => !(s == "")
  | .arr l => !l.isEmpty
  | .obj l => !l.isEmpty

/-- `isinstance(v, dict) and v.get("type") == "null"`: the test
`remove_null_from_schema` applies to each `anyOf` branch. -/
def isNullTypeDict (v : Json) : Bool :=
  match v with
  | Json.obj o =>
      match jGet o "type" with
      | some t => Json.beq t (Json.str "null")
      | none => false
  | _ => false

mutual

/-- `remove_null_from_schema` from `src/main.py`, lines 57-90.  Returns
`none` where the Python raises: `new_schema.update(filtered[0])` with a
single surviving `anyOf` branch that is not a dict (for realistic branch
shapes `dict.update` raises a `TypeError`/`ValueError` there).  On scalars
the Python keeps `value` unchanged; the recursive call here is identical on
scalars, so the `isinstance(value, (dict, list))` guard is immaterial. -/
def remove_null_from_schema : Json → Option Json
  | Json.obj kvs => (removeEntries [] kvs).map Json.obj
  | Json.arr xs => (removeList xs).map Json.arr
  | j => some j
termination_by structural j => j

/-- The list branch of `remove_null_from_schema`:
`[remove_null_from_schema(item) for item in schema]`. -/
def removeList : List Json → Option (List Json)
  | [] => some []
  | x :: xs =>
      match remove_null_from_schema x, removeList xs with
      | some y, some ys => some (y :: ys)
      | _, _ => none
termination_by structural l => l

/-- The dict branch of `remove_null_from_schema`: fold the `for key, value
in schema.items()` loop over the entries, `acc` being `new_schema` so far.
Each entry follows the source's `elif` chain in order. -/
def removeEntries (acc : List (String × Json)) :
    List (String × Json) → Option (List (String × Json))
  | [] => some acc
  | (key, value) :: rest =>
      if key == "anyOf" && value.isArr then
        -- filtered = [v for v in value if not (isinstance(v, dict) and v.get("type") == "null")]
        let filtered := value.asArr.filter (fun v => !isNullTypeDict v)
        if filtered.isEmpty then removeEntries acc rest
        else if filtered.length == 1 then
          match filtered.headD Json.null with
          | Json.obj o => removeEntries (mergeObj acc o) rest
          | _ => none
        else removeEntries (setKey acc key (Json.arr filtered)) rest
      else if key == "type" && value.isArr
          && value.asArr.any (fun v => Json.beq v (Json.str "null")) then
        -- type: ["string", "null"] -> type: "string"
        let filtered := value.asArr.filter (fun v => !Json.beq v (Json.str "null"))
        if filtered.length == 1 then
          removeEntries (setKey acc "type" (filtered.headD Json.null)) rest
        else removeEntries (setKey acc "type" (Json.arr filtered)) rest
      else if key == "type" && Json.beq value (Json.str "null") then
        removeEntries acc rest
      else if key == "default" && value.isNull then
        removeEntries acc rest
      else
        match remove_null_from_schema value with
        | some v2 => removeEntries (setKey acc key v2) rest
        | none => none
termination_by structural l => l

end

/-- A string value equal to `"null"`. -/
def isStrNull : Json → Bool
  | .str s => s == "null"
  | _ => false

/-- A string value. -/
def Json.isStr : Json → Bool
  | .str _ => true
  | _ => false

/-- An entry that is one of the claim's nullable-type markers: a `"type"`
key holding `"null"`, a `"type"` key holding a list with a `"null"` member,
or a `"default"` key holding `null`.  (An `anyOf` branch whose type is
`"null"` is such an object itself, so the recursive `hasNullMarker` finds
it.) -/
def isMarkerEntry (k : String) (v : Json) : Bool :=
  (k == "type" && isStrNull v)
    || (k == "type" && v.isArr && v.asArr.any isStrNull)
    || (k == "default" && v.isNull)

mutual

/-- A nullable-type marker occurs somewhere in the value. -/
def hasNullMarker : Json → Bool
  | .obj kvs => entriesHaveMarker kvs
  | .arr xs => listHasMarker xs
  | _ => false
termination_by structural j => j

def listHasMarker : List Json → Bool
  | [] => false
  | x :: xs => hasNullMarker x || listHasMarker xs
termination_by structural l => l

def entriesHaveMarker : List (String × Json) → Bool
  | [] => false
  | (k, v) :: rest => isMarkerEntry k v || hasNullMarker v || entriesHaveMarker rest
termination_by structural l => l

end

mutual

/-- The shape every JSON schema in the tool manifest has: no object uses an
`anyOf` key, and a list-valued `type` holds strings only. -/
def schemaTame : Json → Bool
  | .obj kvs => entriesTame kvs
  | .arr xs => listTame xs
  | _ => true
termination_by structural j => j

def listTame : List Json → Bool
  | [] => true
  | x :: xs => schemaTame x && listTame xs
termination_by structural l => l

def entriesTame : List (String × Json) → Bool
  | [] => true
  | (k, v) :: rest =>
      !(k == "anyOf")
        && (!(k == "type" && v.isArr) || v.asArr.all Json.isStr)
        && schemaTame v && entriesTame rest
termination_by structural l => l

end

/-! ## The Graph request client (`src/client.py`) -/

/-- `https://graph.microsoft.com/v1.0`. -/
def GRAPH_API_ENDPOINT : String := "https://graph.microsoft.com/v1.0"

/-- The mutable authentication state of `OutlookClient`: `access_token` is
`self.access_token`, and `cache_token` abstracts the MSAL token cache —
`some t` when `get_accounts`/`acquire_token_silent` would yield the access
token `t`, `none` when the silent reload fails. -/
structure ClientState where
  access_token : Option String
  cache_token : Option String

/-- One HTTP response of the transport: status code, parsed JSON body
(`none` for an empty body) and the reason phrase used by
`raise_for_status`'s message. -/
structure Response where
  status : Nat
  content : Option Json
  reason : String

/-- `response.json() if response.content else {}`. -/
def Response.jsonBody (r : Response) : Json :=
  match r.content with
  | some j => j
  | none => Json.obj []

/-- The keyword arguments the tools pass to `OutlookClient.request`:
an optional `headers` dict, an optional `json` body and an optional
`params` query dict. -/
structure Kwargs where
  headers : Option (List (String × String))
  json : Option Json
  params : Option (List (String × Json))

/-- The `Kwargs` of a call passing none of the keyword arguments. -/
def Kwargs.none' : Kwargs := ⟨none, none, none⟩

/-- One call to `requests.request` as observed on the wire: method, full
URL, the merged header dict and the forwarded `json`/`params` kwargs. -/
structure SentRequest where
  method : String
  url : String
  headers : List (String × String)
  json : Option Json
  params : Option (List (String × Json))

/-- Dict assignment for string-valued header dicts. -/
def setKeyStr : List (String × String) → String → String → List (String × String)
  | [], k, v => [(k, v)]
  | (k', v') :: rest, k, v =>
      if k' == k then (k, v) :: rest else (k', v') :: setKeyStr rest k v

/-- `headers.update(custom_headers)`. -/
def mergeHeaders (base custom : List (String × String)) : List (String × String) :=
  custom.foldl (fun a p => setKeyStr a p.1 p.2) base

/-- `OutlookClient._load_cached_token` (lines 76-84): on a cache hit the
access token is replaced and `True` returned, otherwise `False`. -/
def OutlookClient.load_cached_token (st : ClientState) : Bool × ClientState :=
  match st.cache_token with
  | some t => (true, ⟨some t, st.cache_token⟩)
  | none => (false, st)

/-- `OutlookClient.get_headers` (lines 134-142): bearer authorization plus
content type, or the not-authenticated exception. -/
def OutlookClient.get_headers (st : ClientState) : Except String (List (String × String)) :=
  match st.access_token with
  | none => Except.error "Not authenticated. Call authenticate_interactive() first."
  | some tok =>
      Except.ok [("Authorization", "Bearer " ++ tok), ("Content-Type", "application/json")]

/-- `response.raise_for_status()` followed by the body read: `requests`
raises exactly for status codes 400-599 (client and server errors), with a
message carrying the status and reason; every other status falls through to
`response.json() if response.content else {}`. -/
def OutlookClient.finishResponse (r : Response) (url : String) : Except String Json :=
  if 400 ≤ r.status ∧ r.status < 500 then
    Except.error (toString r.status ++ " Client Error: " ++ r.reason ++ " for url: " ++ url)
  else if 500 ≤ r.status ∧ r.status < 600 then
    Except.error (toString r.status ++ " Server Error: " ++ r.reason ++ " for url: " ++ url)
  else Except.ok r.jsonBody

/-- `OutlookClient.request` (lines 144-166).  `w` is the HTTP transport:
`w n` is the response `requests.request` yields on the n-th wire call of
this invocation.  Returns the result (`Except.error` = raised exception),
the wire calls made in order, and the client state afterwards. -/
def OutlookClient.request (st : ClientState) (w : Nat → Response)
    (method endpoint : String) (kw : Kwargs) :
    Except String Json × List SentRequest × ClientState :=
  let url := GRAPH_API_ENDPOINT ++ endpoint
  match st.access_token with
  | none =>
      (Except.error "Not authenticated. Call authenticate_interactive() first.", [], st)
  | some tok =>
      let base := [("Authorization", "Bearer " ++ tok), ("Content-Type", "application/json")]
      -- custom headers are merged only when the kwarg is present and truthy
      let headers :=
        match kw.headers with
        | some custom => if custom.isEmpty then base else mergeHeaders base custom
        | none => base
      let r0 := w 0
      let sent0 : SentRequest := ⟨method, url, headers, kw.json, kw.params⟩
      if r0.status == 401 then
        match st.cache_token with
        | some tok2 =>
            -- silent reload succeeded: rebuild headers from get_headers()
            -- (custom headers are not re-merged) and retry exactly once
            let st2 : ClientState := ⟨some tok2, st.cache_token⟩
            let headers2 :=
              [("Authorization", "Bearer " ++ tok2), ("Content-Type", "application/json")]
            let r1 := w 1
            let sent1 : SentRequest := ⟨method, url, headers2, kw.json, kw.params⟩
            (OutlookClient.finishResponse r1 url, [sent0, sent1], st2)
        | none =>
            (Except.error "Authentication expired. Please re-authenticate.", [sent0], st)
      else
        (OutlookClient.finishResponse r0 url, [sent0], st)

/-! ## The tool layer (`src/tools/*.py`)

Each tool function talks to the client through `get`/`post`/`patch`/
`delete`.  For the tool-level properties the client is abstracted to a
`ToolClient`: its `authenticated` flag is what `is_authenticated()`
returns, and `outcomes n` is the value of the n-th client call made by the
tool body — `Except.ok` the parsed JSON, `Except.error` the message of the
exception the call raised.  Each tool returns its Response Envelope
together with the list of client calls it issued, in order. -/

structure ToolClient where
  authenticated : Bool
  outcomes : Nat → Except String Json

/-- One client call made by a tool: HTTP method, endpoint path, and the
`json`, `params` and `headers` keyword arguments (absent = `none`). -/
structure ToolReq where
  method : String
  endpoint : String
  json : Option Json
  params : Option (List (String × Json))
  headers : Option (List (String × String))

/-- The uniform return shape `{"successful": ..., "data": ..., "error": ...}`;
`error = none` models an envelope without the `"error"` key. -/
structure Envelope where
  successful : Bool
  data : Json
  error : Option String

/-- The envelope every tool returns when `client.is_authenticated()` is
false. -/
def notAuthEnv : Envelope :=
  ⟨false, Json.obj [], some "Not authenticated. Please authenticate first."⟩

/-- The `except Exception` envelope: `successful=False`, empty data, the
exception's string. -/
def errEnv (m : String) : Envelope := ⟨false, Json.obj [], some m⟩

/-- A success envelope: no `"error"` key. -/
def okEnv (d : Json) : Envelope := ⟨true, d, none⟩

/-- `x if x else default` for an optional string (Python truthiness: an
absent or empty string falls back). -/
def pyStrOr (o : Option String) (d : String) : String :=
  match o with
  | some s => if s == "" then d else s
  | none => d

/-- `user = user_id if user_id else "me"`. -/
def userOf (user_id : Option String) : String := pyStrOr user_id "me"

/-- Truthiness of an optional list (`if cc_emails:`): present and
non-empty. -/
def optListTruthy {α : Type} (o : Option (List α)) : Bool :=
  match o with
  | some l => !l.isEmpty
  | none => false

/-- Truthiness of an optional bool (`if is_html:`). -/
def optBoolTruthy (o : Option Bool) : Bool :=
  match o with
  | some b => b
  | none => false

/-- Truthiness of an optional string (`if folder:`). -/
def optStrTruthy (o : Option String) : Bool :=
  match o with
  | some s => !(s == "")
  | none => false

/-- `[{"emailAddress": {"address": email}} for email in emails]`. -/
def recipList (emails : List String) : Json :=
  Json.arr (emails.map fun e => Json.obj [("emailAddress", Json.obj [("address", Json.str e)])])

/-- Python `str(b).lower()` for a bool. -/
def pyBoolStr (b : Bool) : String := if b then "true" else "false"

/-- Python `" and ".join(parts)`. -/
def joinAnd (parts : List String) : String := String.intercalate " and " parts

/-- Python `",".join(parts)`. -/
def joinComma (parts : List String) : String := String.intercalate "," parts

/-- Substring containment on char lists (Python `pat in s` for strings). -/
def listContainsSub (pat : List Char) : List Char → Bool
  | [] => pat.isEmpty
  | c :: rest => pat.isPrefixOf (c :: rest) || listContainsSub pat rest

/-- Python `pat in s` for strings. -/
def strContainsSub (s pat : String) : Bool := listContainsSub pat.data s.data

/-- `s.endswith(suffix)`. -/
def strEndsWith (s suffix : String) : Bool :=
  List.isPrefixOf suffix.data.reverse s.data.reverse

/-- The local file system as the attachment tools see it: `os.path.exists`,
reading a file's bytes, and writing bytes to a file (each fallible call
returns `Except.error` with the raised exception's string). -/
structure FileSys where
  pathExists : String → Bool
  readFile : String → Except String String
  writeFile : String → String → Except String Unit

/-- The base64 codec: `b64encode` never raises, `b64decode` raises on
malformed input. -/
structure Codec where
  b64encode : String → String
  b64decode : String → Except String String

/-- `send_email` from `src/tools/mail_tools.py`, lines 643-749. -/
def send_email (client : ToolClient) (subject body to_email : String)
    (to_name : Option String) (cc_emails bcc_emails : Option (List String))
    (is_html : Option Bool) (attachment : Option (List (String × Json)))
    (save_to_sent_items : Option Bool) (user_id : Option String) :
    Envelope × List ToolReq :=
  if !client.authenticated then (notAuthEnv, [])
  else
    let message : List (String × Json) :=
      [("subject", Json.str subject),
       ("body", Json.obj
          [("contentType", Json.str (if optBoolTruthy is_html then "HTML" else "Text")),
           ("content", Json.str body)]),
       ("toRecipients", Json.arr
          [Json.obj [("emailAddress", Json.obj
             [("address", Json.str to_email),
              ("name", Json.str (pyStrOr to_name to_email))])]])]
    -- the keys below are fresh, so dict assignment appends in source order
    let message := message ++
      (if optListTruthy cc_emails then [("ccRecipients", recipList (cc_emails.getD []))] else [])
    let message := message ++
      (if optListTruthy bcc_emails then [("bccRecipients", recipList (bcc_emails.getD []))] else [])
    let message := message ++
      (match attachment with
       | some att =>
          if att.isEmpty then []
          else [("attachments", Json.arr [Json.obj
             [("@odata.type", Json.str "#microsoft.graph.fileAttachment"),
              ("name", jGetD att "name" Json.null),
              ("contentType", jGetD att "contentType" (Json.str "application/octet-stream")),
              ("contentBytes", jGetD att "contentBytes" Json.null)]])]
       | none => [])
    let send_data := Json.obj
      ([("message", Json.obj message)] ++
        (match save_to_sent_items with
         | some b => [("saveToSentItems", Json.bool b)]
         | none => []))
    let endpoint := "/" ++ userOf user_id ++ "/sendMail"
    let req : ToolReq := ⟨"POST", endpoint, some send_data, none, none⟩
    ((match client.outcomes 0 with
      | Except.error e => errEnv e
      | Except.ok _ => okEnv (Json.obj [("message", Json.str "Email sent successfully")])),
     [req])

/-- `list_messages` from `src/tools/list_tools.py`, lines 430-568. -/
def list_messages (client : ToolClient) (folder : Option String)
    (categories : Option (List String)) (conversationId : Option String)
    (from_address : Option String) (has_attachments : Option Bool)
    (importance : Option String) (is_read : Option Bool)
    (orderby : Option (List String))
    (received_date_time_ge received_date_time_gt : Option String)
    (received_date_time_le received_date_time_lt : Option String)
    (select : Option (List String))
    (sent_date_time_gt sent_date_time_lt : Option String)
    (skip : Option Int) (subject : Option String)
    (subject_contains subject_endswith subject_startswith : Option String)
    (top : Option Int) (user_id : Option String) :
    Envelope × List ToolReq :=
  if !client.authenticated then (notAuthEnv, [])
  else
    let filter_parts : List String :=
      (match conversationId with
       | some c => if c == "" then [] else ["conversationId eq '" ++ c ++ "'"]
       | none => []) ++
      (match from_address with
       | some a => if a == "" then [] else ["from/emailAddress/address eq '" ++ a ++ "'"]
       | none => []) ++
      (match has_attachments with
       | some b => ["hasAttachments eq " ++ pyBoolStr b]
       | none => []) ++
      (match importance with
       | some i => if i == "" then [] else ["importance eq '" ++ i ++ "'"]
       | none => []) ++
      (match is_read with
       | some b => ["isRead eq " ++ pyBoolStr b]
       | none => []) ++
      (match received_date_time_ge with
       | some d => if d == "" then [] else ["receivedDateTime ge " ++ d]
       | none => []) ++
      (match received_date_time_gt with
       | some d => if d == "" then [] else ["receivedDateTime gt " ++ d]
       | none => []) ++
      (match received_date_time_le with
       | some d => if d == "" then [] else ["receivedDateTime le " ++ d]
       | none => []) ++
      (match received_date_time_lt with
       | some d => if d == "" then [] else ["receivedDateTime lt " ++ d]
       | none => []) ++
      (match sent_date_time_gt with
       | some d => if d == "" then [] else ["sentDateTime gt " ++ d]
       | none => []) ++
      (match sent_date_time_lt with
       | some d => if d == "" then [] else ["sentDateTime lt " ++ d]
       | none => []) ++
      (match subject with
       | some s => if s == "" then [] else ["subject eq '" ++ s ++ "'"]
       | none => []) ++
      (match subject_contains with
       | some s => if s == "" then [] else ["contains(subject, '" ++ s ++ "')"]
       | none => []) ++
      (match subject_startswith with
       | some s => if s == "" then [] else ["startswith(subject, '" ++ s ++ "')"]
       | none => []) ++
      (match subject_endswith with
       | some s => if s == "" then [] else ["endswith(subject, '" ++ s ++ "')"]
       | none => []) ++
      (if optListTruthy categories then
        (categories.getD []).map (fun cat => "categories/any(c:c eq '" ++ cat ++ "')")
       else [])
    let params : List (String × Json) :=
      (if filter_parts.isEmpty then [] else [("$filter", Json.str (joinAnd filter_parts))]) ++
      (if optListTruthy orderby then [("$orderby", Json.str (joinComma (orderby.getD [])))] else []) ++
      (if optListTruthy select then [("$select", Json.str (joinComma (select.getD [])))] else []) ++
      (match skip with
       | some n => [("$skip", Json.num n)]
       | none => []) ++
      (match top with
       | some n => [("$top", Json.num n)]
       | none => [])
    let user := userOf user_id
    let endpoint :=
      if optStrTruthy folder then "/" ++ user ++ "/mailFolders/" ++ (folder.getD "") ++ "/messages"
      else "/" ++ user ++ "/messages"
    let req : ToolReq :=
      ⟨"GET", endpoint, none, if params.isEmpty then none else some params, none⟩
    ((match client.outcomes 0 with
      | Except.error e => errEnv e
      | Except.ok result => okEnv result),
     [req])

/-- `list_calendars` from `src/tools/list_tools.py`, lines 8-71. -/
def list_calendars (client : ToolClient) (select : Option (List String))
    (filter : Option String) (orderby : Option (List String))
    (top skip : Option Int) (user_id : Option String) :
    Envelope × List ToolReq :=
  if !client.authenticated then (notAuthEnv, [])
  else
    let params : List (String × Json) :=
      (if optListTruthy select then [("$select", Json.str (joinComma (select.getD [])))] else []) ++
      (if optStrTruthy filter then [("$filter", Json.str (filter.getD ""))] else []) ++
      (if optListTruthy orderby then [("$orderby", Json.str (joinComma (orderby.getD [])))] else []) ++
      (match top with
       | some n => [("$top", Json.num n)]
       | none => []) ++
      (match skip with
       | some n => [("$skip", Json.num n)]
       | none => [])
    let endpoint := "/" ++ userOf user_id ++ "/calendars"
    let req : ToolReq :=
      ⟨"GET", endpoint, none, if params.isEmpty then none else some params, none⟩
    ((match client.outcomes 0 with
      | Except.error e => errEnv e
      | Except.ok result => okEnv result),
     [req])

/-- `create_calendar` from `src/tools/calendar_tools.py`, lines 10-67. -/
def create_calendar (client : ToolClient) (name : String)
    (color hexColor : Option String) (user_id : Option String) :
    Envelope × List ToolReq :=
  if !client.authenticated then (notAuthEnv, [])
  else
    let calendar_data := Json.obj
      ([("name", Json.str name)] ++
        (match color with
         | some c => [("color", Json.str c)]
         | none => []) ++
        (match hexColor with
         | some h => [("hexColor", Json.str h)]
         | none => []))
    let endpoint := "/" ++ userOf user_id ++ "/calendars"
    let req : ToolReq := ⟨"POST", endpoint, some calendar_data, none, none⟩
    ((match client.outcomes 0 with
      | Except.error e => errEnv e
      | Except.ok result => okEnv result),
     [req])

/-- `delete_mail_folder` from `src/tools/folder_tools.py`, lines 64-106. -/
def delete_mail_folder (client : ToolClient) (folder_id : String)
    (user_id : Option String) : Envelope × List ToolReq :=
  if !client.authenticated then (notAuthEnv, [])
  else
    let endpoint := "/" ++ userOf user_id ++ "/mailFolders/" ++ folder_id
    let req : ToolReq := ⟨"DELETE", endpoint, none, none, none⟩
    ((match client.outcomes 0 with
      | Except.error e => errEnv e
      | Except.ok result =>
          okEnv (if pyTruthy result then result else Json.obj [("deleted", Json.bool true)])),
     [req])

/-- Error message of `update_email` when the target is known not to be a
draft. -/
def cannotUpdateReceivedMsg : String :=
  "Cannot update received message. Only draft messages can be updated. Please use a draft message ID or create a draft first using outlook_create_draft."

/-- Error message of `update_email` for a malformed `body` argument. -/
def bodyFormatMsg : String :=
  "Body must be a dict with 'contentType' and 'content' fields, e.g., \x7b'contentType': 'text', 'content': 'Hello'\x7d"

/-- Error message of `update_email` when no field to update was given. -/
def atLeastOneFieldMsg : String :=
  "At least one field (subject, body, to_recipients, cc_recipients, bcc_recipients, or importance) must be provided to update."

/-- The `except` handler of `update_email` (lines 626-640): a 400-style
message that mentions drafts is rewritten, every other message is kept. -/
def remapUpdateError (m : String) : String :=
  if (strContainsSub m "400" || strContainsSub m "Bad Request")
      && (strContainsSub m.toLower "draft" || strContainsSub m.toLower "cannot") then
    "Cannot update this message. Only draft messages can be updated. Error: " ++ m
  else m

/-- `update_email` from `src/tools/mail_tools.py`, lines 510-640.  Client
call 0 is the preliminary `isDraft` check (its exceptions are swallowed by
the inner `try`), client call 1 is the PATCH. -/
def update_email (client : ToolClient) (message_id : String)
    (subject : Option String) (body : Option Json)
    (to_recipients cc_recipients bcc_recipients : Option (List String))
    (importance : Option String) (user_id : Option String) :
    Envelope × List ToolReq :=
  if !client.authenticated then (notAuthEnv, [])
  else
    let user := userOf user_id
    let check_endpoint := "/" ++ user ++ "/messages/" ++ message_id ++ "?$select=isDraft"
    let checkReq : ToolReq := ⟨"GET", check_endpoint, none, none, none⟩
    let notDraftKnown :=
      match client.outcomes 0 with
      | Except.ok (Json.obj o) => !pyTruthy (jGetD o "isDraft" (Json.bool false))
      | Except.ok _ => false      -- `.get` on a non-dict raises; the inner `except` swallows it
      | Except.error _ => false   -- "If we can't check, proceed anyway"
    if notDraftKnown then (errEnv cannotUpdateReceivedMsg, [checkReq])
    else
      let bodyEntry : Except String (List (String × Json)) :=
        match body with
        | none => Except.ok []
        | some (Json.obj o) =>
            if jHasKey o "contentType" && jHasKey o "content" then
              Except.ok [("body", Json.obj o)]
            else Except.error bodyFormatMsg
        | some _ => Except.error bodyFormatMsg
      match bodyEntry with
      | Except.error m => (errEnv m, [checkReq])
      | Except.ok bodyPart =>
          let message_data :=
            (match subject with
             | some s => [("subject", Json.str s)]
             | none => []) ++ bodyPart ++
            (match to_recipients with
             | some l => [("toRecipients", recipList l)]
             | none => []) ++
            (match cc_recipients with
             | some l => [("ccRecipients", recipList l)]
             | none => []) ++
            (match bcc_recipients with
             | some l => [("bccRecipients", recipList l)]
             | none => []) ++
            (match importance with
             | some i => [("importance", Json.str i)]
             | none => [])
          if message_data.isEmpty then (errEnv atLeastOneFieldMsg, [checkReq])
          else
            let endpoint := "/" ++ user ++ "/messages/" ++ message_id
            let patchReq : ToolReq := ⟨"PATCH", endpoint, some (Json.obj message_data), none, none⟩
            match client.outcomes 1 with
            | Except.ok result => (okEnv result, [checkReq, patchReq])
            | Except.error e => (errEnv (remapUpdateError e), [checkReq, patchReq])

/-- `add_event_attachment` from `src/tools/calendar_tools.py`, lines
70-168.  Content priority: `file_path`, then `text_content`, then
`contentBytes`; file errors return before any client call. -/
def add_event_attachment (client : ToolClient) (fs : FileSys) (codec : Codec)
    (event_id name odata_type : String)
    (contentBytes file_path text_content : Option String)
    (item : Option Json) (user_id : Option String) :
    Envelope × List ToolReq :=
  if !client.authenticated then (notAuthEnv, [])
  else
    let contentResult : Except Envelope (Option String) :=
      match file_path with
      | some fp =>
          if !fs.pathExists fp then Except.error (errEnv ("File not found: " ++ fp))
          else
            match fs.readFile fp with
            | Except.ok fileContent => Except.ok (some (codec.b64encode fileContent))
            | Except.error e => Except.error (errEnv ("Error reading file: " ++ e))
      | none =>
          match text_content with
          | some t => Except.ok (some (codec.b64encode t))
          | none => Except.ok contentBytes
    match contentResult with
    | Except.error env => (env, [])
    | Except.ok final_content_bytes =>
        let attachment_data := Json.obj
          ([("@odata.type", Json.str odata_type), ("name", Json.str name)] ++
            (match final_content_bytes with
             | some cb => [("contentBytes", Json.str cb)]
             | none => []) ++
            (match item with
             | some it => [("item", it)]
             | none => []))
        let endpoint := "/" ++ userOf user_id ++ "/events/" ++ event_id ++ "/attachments"
        let req : ToolReq := ⟨"POST", endpoint, some attachment_data, none, none⟩
        ((match client.outcomes 0 with
          | Except.ok result => okEnv result
          | Except.error e => errEnv e),
         [req])

/-- Error message when the fetched attachment has no `contentBytes`. -/
def noContentBytesMsg : String :=
  "Attachment does not contain downloadable content (contentBytes). It may be a link or embedded item."

/-- `download_outlook_attachment` from `src/tools/attachment_tools.py`,
lines 9-74.  The non-dict result arms model the exceptions Python's `in`
and subscript raise there; all are caught by the function's `except`. -/
def download_outlook_attachment (client : ToolClient) (fs : FileSys)
    (codec : Codec) (message_id attachment_id file_name : String)
    (user_id : Option String) : Envelope × List ToolReq :=
  if !client.authenticated then (notAuthEnv, [])
  else
    let endpoint :=
      "/" ++ userOf user_id ++ "/messages/" ++ message_id ++ "/attachments/" ++ attachment_id
    let req : ToolReq := ⟨"GET", endpoint, none, none, none⟩
    ((match client.outcomes 0 with
      | Except.error e => errEnv e
      | Except.ok (Json.obj o) =>
          if !jHasKey o "contentBytes" then errEnv noContentBytesMsg
          else
            (match jGetD o "contentBytes" Json.null with
             | Json.str s =>
                 match codec.b64decode s with
                 | Except.error e => errEnv e
                 | Except.ok content_bytes =>
                     match fs.writeFile file_name content_bytes with
                     | Except.error e => errEnv e
                     | Except.ok _ =>
                         okEnv (Json.obj
                            [("file_name", Json.str file_name),
                             ("size", Json.num (content_bytes.length : Int)),
                             ("content_type", jGetD o "contentType" (Json.str "unknown")),
                             ("name", jGetD o "name" (Json.str file_name))])
             | _ => errEnv "argument should be a bytes-like object or ASCII string")
      | Except.ok (Json.arr xs) =>
          if !(xs.any (fun v => Json.beq v (Json.str "contentBytes"))) then
            errEnv noContentBytesMsg
          else errEnv "list indices must be integers or slices, not str"
      | Except.ok (Json.str s) =>
          if !(strContainsSub s "contentBytes") then errEnv noContentBytesMsg
          else errEnv "string indices must be integers"
      | Except.ok _ => errEnv "argument of type is not iterable"),
     [req])

/-! ## The manifest dispatcher (`src/main.py`)

A tool function is abstracted as a `PyFunc`: its ordered parameter list
(name plus optional default; the repository's tool functions default every
optional parameter to `None`) and the computation run once keyword binding
succeeded.  Defaults cross the generated source through `repr`; on the
scalar/list/dict values occurring as defaults, `eval (repr v)` is the
identity, so the wrapper stores the default value itself. -/

/-- One parameter of a Python function: its name and its default value
(`none` = required, Python's `inspect._empty`). -/
structure PyParam where
  name : String
  default : Option Json

/-- A Python tool function over client type `C`: the signature and the body
run on the client and the keyword-bound arguments (in parameter order). -/
structure PyFunc (C : Type) where
  params : List PyParam
  body : C → List (String × Json) → Envelope

/-- Binding of one parameter from the keyword arguments: the caller's
value, else the default, else a missing-argument `TypeError` (`none`). -/
def bindParam (kwargs : List (String × Json)) (p : PyParam) : Option Json :=
  match jGet kwargs p.name, p.default with
  | some v, _ => some v
  | none, some d => some d
  | none, none => none

/-- Keyword binding of a parameter list: every parameter bound in order. -/
def bindArgsGo (ps : List PyParam) (kwargs : List (String × Json)) :
    Option (List (String × Json)) :=
  match ps with
  | [] => some []
  | p :: rest =>
      match bindParam kwargs p, bindArgsGo rest kwargs with
      | some v, some tail => some ((p.name, v) :: tail)
      | _, _ => none

/-- Full Python keyword binding: also rejects unexpected keyword arguments
with a `TypeError` (`none`). -/
def bindArgs (ps : List PyParam) (kwargs : List (String × Json)) :
    Option (List (String × Json)) :=
  if kwargs.all (fun q => ps.any (fun p => p.name == q.1)) then bindArgsGo ps kwargs
  else none

/-- `__func(client=client, **kwargs)`: the underlying tool function invoked
with the client as the `client` keyword and all other arguments by keyword.
`none` models the `TypeError` when `client` is not a parameter, when a
keyword repeats `client`, when a keyword is unexpected, or when a required
parameter is missing. -/
def PyFunc.callKw {C : Type} (f : PyFunc C) (c : C)
    (kwargs : List (String × Json)) : Option Envelope :=
  if f.params.any (fun p => p.name == "client")
      && kwargs.all (fun q => !(q.1 == "client")) then
    (bindArgs (f.params.filter (fun p => !(p.name == "client"))) kwargs).map (f.body c)
  else none

/-- `get_client` from `src/main.py`, lines 39-54: the lazily constructed
process-wide singleton.  `newClient` is the client `OutlookClient()` (plus
the interactive authentication) would construct; the state is
`state.get("client")`. -/
def get_client {C : Type} (newClient : C) (st : Option C) : C × Option C :=
  match st with
  | some c => (c, some c)
  | none => (newClient, some newClient)

/-- The object `create_dynamic_wrapper` returns: the public signature of
the generated `wrapper` and its call behaviour (threading the singleton
state; `none` models a `TypeError` raised by the binding). -/
structure PyWrapper (C : Type) where
  params : List PyParam
  call : Option C → List (String × Json) → Option Envelope × Option C

/-- `create_dynamic_wrapper` from `src/main.py`, lines 155-203: the
signature is `func`'s minus `client`; the generated body rebuilds `kwargs`
from its bound parameters, fetches the singleton client and forwards
everything to `func`. -/
def create_dynamic_wrapper {C : Type} (newClient : C) (f : PyFunc C) : PyWrapper C :=
  { params := f.params.filter (fun p => !(p.name == "client")),
    call := fun st kwargs =>
      match bindArgs (f.params.filter (fun p => !(p.name == "client"))) kwargs with
      | none => (none, st)
      | some bound =>
          let cs := get_client newClient st
          (f.callKw cs.1 bound, cs.2) }

/-! ## Claim-side predicates -/

/-- The Response Envelope invariant of the data model: a successful
envelope carries no `error` field; an unsuccessful one carries empty data
and a populated (non-empty) error string. -/
def EnvOK (e : Envelope) : Prop :=
  (e.successful = true → e.error = none) ∧
  (e.successful = false → e.data = Json.obj [] ∧ ∃ s, e.error = some s ∧ s ≠ "")

/-- Every exception a client call can raise carries a non-empty message
(as the exceptions of `requests` and of `client.py` do). -/
def NonEmptyErrors (client : ToolClient) : Prop :=
  ∀ n m, client.outcomes n = Except.error m → m ≠ ""

/-- Every file-write exception carries a non-empty message. -/
def CleanFS (fs : FileSys) : Prop :=
  ∀ f c m, fs.writeFile f c = Except.error m → m ≠ ""

/-- Every base64-decode exception carries a non-empty message. -/
def CleanCodec (codec : Codec) : Prop :=
  ∀ s m, codec.b64decode s = Except.error m → m ≠ ""

/-! ## Helper lemmas -/

theorem beq_str_null (v : Json) : Json.beq v (Json.str "null") = isStrNull v := by
  cases v <;> simp [Json.beq, isStrNull]

theorem hasNullMarker_str (s : String) : hasNullMarker (Json.str s) = false := by
  simp [hasNullMarker]

theorem listHasMarker_of_all_str (xs : List Json) (h : xs.all Json.isStr = true) :
    listHasMarker xs = false := by
  induction xs with
  | nil => simp [listHasMarker]
  | cons x xs ih =>
      simp only [List.all_cons, Bool.and_eq_true] at h
      cases x <;> simp_all [listHasMarker, hasNullMarker, Json.isStr]

theorem entriesHaveMarker_setKey (acc : List (String × Json)) (k : String) (v : Json)
    (hacc : entriesHaveMarker acc = false) (hkv : isMarkerEntry k v = false)
    (hv : hasNullMarker v = false) :
    entriesHaveMarker (setKey acc k v) = false := by
  induction acc with
  | nil => simp [setKey, entriesHaveMarker, hkv, hv]
  | cons p rest ih =>
      obtain ⟨k', v'⟩ := p
      simp only [entriesHaveMarker, Bool.or_eq_false_iff] at hacc
      obtain ⟨⟨h1, h2⟩, h3⟩ := hacc
      by_cases hk : (k' == k) = true
      · simp [setKey, hk, entriesHaveMarker, hkv, hv, h3]
      · simp only [setKey, Bool.not_eq_true] at hk ⊢
        simp [hk, entriesHaveMarker, h1, h2, ih h3]

theorem isMarkerEntry_type_arr (xs : List Json) :
    isMarkerEntry "type" (Json.arr xs) = xs.any isStrNull := by
  cases h : xs.any isStrNull with
  | true => simp [isMarkerEntry, Json.isArr, Json.asArr, h]
  | false => simp [isMarkerEntry, isStrNull, Json.isArr, Json.asArr, Json.isNull, h]

theorem remove_isStrNull (j t : Json) (h : remove_null_from_schema j = some t) :
    isStrNull t = isStrNull j := by
  cases j <;> simp only [remove_null_from_schema, Option.some.injEq] at h
  · subst h; rfl
  · subst h; rfl
  · subst h; rfl
  · subst h; rfl
  · rcases Option.map_eq_some'.mp h with ⟨ys, _, rfl⟩
    rfl
  · rcases Option.map_eq_some'.mp h with ⟨res, _, rfl⟩
    rfl

theorem remove_isNull (j t : Json) (h : remove_null_from_schema j = some t) :
    Json.isNull t = Json.isNull j := by
  cases j <;> simp only [remove_null_from_schema, Option.some.injEq] at h
  · subst h; rfl
  · subst h; rfl
  · subst h; rfl
  · subst h; rfl
  · rcases Option.map_eq_some'.mp h with ⟨ys, _, rfl⟩
    rfl
  · rcases Option.map_eq_some'.mp h with ⟨res, _, rfl⟩
    rfl

theorem removeList_any_strNull (xs ys : List Json) (h : removeList xs = some ys) :
    ys.any isStrNull = xs.any isStrNull := by
  induction xs generalizing ys with
  | nil =>
      simp only [removeList, Option.some.injEq] at h
      subst h; rfl
  | cons x xs ih =>
      simp only [removeList] at h
      rcases hx : remove_null_from_schema x with _ | y <;> rw [hx] at h
      · exact absurd h (by simp)
      · rcases hxs : removeList xs with _ | ys' <;> rw [hxs] at h
        · exact absurd h (by simp)
        · simp only [Option.some.injEq] at h
          subst h
          simp [List.any_cons, remove_isStrNull x y hx, ih ys' hxs]

theorem remove_arrAnyNull (j t : Json) (h : remove_null_from_schema j = some t) :
    (t.isArr && t.asArr.any isStrNull) = (j.isArr && j.asArr.any isStrNull) := by
  cases j <;> simp only [remove_null_from_schema, Option.some.injEq] at h
  · subst h; rfl
  · subst h; rfl
  · subst h; rfl
  · subst h; rfl
  · rcases Option.map_eq_some'.mp h with ⟨ys, hys, rfl⟩
    simp [Json.isArr, Json.asArr, removeList_any_strNull _ _ hys]
  · rcases Option.map_eq_some'.mp h with ⟨res, _, rfl⟩
    rfl

mutual

theorem removeClean : ∀ j, schemaTame j = true →
    ∃ t, remove_null_from_schema j = some t ∧ hasNullMarker t = false
  | Json.null, _ => ⟨Json.null, rfl, rfl⟩
  | Json.bool b, _ => ⟨Json.bool b, rfl, rfl⟩
  | Json.num n, _ => ⟨Json.num n, rfl, rfl⟩
  | Json.str s, _ => ⟨Json.str s, rfl, rfl⟩
  | Json.arr xs, h => by
      have h' : listTame xs = true := by simpa [schemaTame] using h
      obtain ⟨ys, hys, hclean⟩ := removeListClean xs h'
      exact ⟨Json.arr ys, by simp [remove_null_from_schema, hys],
        by simp [hasNullMarker, hclean]⟩
  | Json.obj kvs, h => by
      have h' : entriesTame kvs = true := by simpa [schemaTame] using h
      obtain ⟨res, hres, hclean⟩ := removeEntriesClean [] kvs rfl h'
      exact ⟨Json.obj res, by simp [remove_null_from_schema, hres],
        by simp [hasNullMarker, hclean]⟩

theorem removeListClean : ∀ xs, listTame xs = true →
    ∃ ys, removeList xs = some ys ∧ listHasMarker ys = false
  | [], _ => ⟨[], rfl, rfl⟩
  | x :: xs, h => by
      have hx : schemaTame x = true ∧ listTame xs = true := by
        simpa [listTame, Bool.and_eq_true] using h
      obtain ⟨y, hy, hyc⟩ := removeClean x hx.1
      obtain ⟨ys, hys, hysc⟩ := removeListClean xs hx.2
      exact ⟨y :: ys, by simp [removeList, hy, hys], by simp [listHasMarker, hyc, hysc]⟩

theorem removeEntriesClean : ∀ acc kvs, entriesHaveMarker acc = false →
    entriesTame kvs = true →
    ∃ res, removeEntries acc kvs = some res ∧ entriesHaveMarker res = false
  | acc, [], hacc, _ => ⟨acc, by simp [removeEntries], hacc⟩
  | acc, (key, value) :: rest, hacc, htame => by
      simp only [entriesTame, Bool.and_eq_true] at htame
      obtain ⟨⟨⟨hA', hT'⟩, hv⟩, hrest⟩ := htame
      have hA : (key == "anyOf") = false := by simpa using hA'
      rw [removeEntries]
      simp only [hA, Bool.false_and, Bool.false_eq_true, if_false]
      cases hc2 : ((key == "type" && value.isArr)
          && value.asArr.any fun v => Json.beq v (Json.str "null")) with
      | true =>
          rw [if_pos rfl]
          simp only [Bool.and_eq_true] at hc2
          obtain ⟨⟨hk, hia⟩, hany⟩ := hc2
          have hall : value.asArr.all Json.isStr = true := by
            have h2 := hT'
            rw [Bool.or_eq_true] at h2
            rcases h2 with h | h
            · rw [hk, hia] at h
              simp at h
            · exact h
          have hfall : (value.asArr.filter
              (fun v => !Json.beq v (Json.str "null"))).all Json.isStr = true := by
            rw [List.all_eq_true] at hall ⊢
            intro x hx
            exact hall x (List.mem_of_mem_filter hx)
          have hfnone : (value.asArr.filter
              (fun v => !Json.beq v (Json.str "null"))).any isStrNull = false := by
            rw [List.any_eq_false]
            intro x hx
            have := (List.mem_filter.mp hx).2
            simp only [Bool.not_eq_true'] at this
            rw [beq_str_null] at this
            simp [this]
          cases hlen : ((value.asArr.filter
              (fun v => !Json.beq v (Json.str "null"))).length == 1) with
          | true =>
              rw [if_pos rfl]
              have hlen' : (value.asArr.filter
                  (fun v => !Json.beq v (Json.str "null"))).length = 1 := by
                simpa using hlen
              obtain ⟨a, hfa⟩ := List.length_eq_one.mp hlen'
              rw [hfa] at hfall hfnone ⊢
              have ha_str : Json.isStr a = true := by simpa using hfall
              have ha_nn : isStrNull a = false := by simpa using hfnone
              have hmk : isMarkerEntry "type" a = false := by
                cases a <;> simp_all [isMarkerEntry, isStrNull, Json.isArr, Json.isStr]
              have hnm : hasNullMarker a = false := by
                cases a <;> simp_all [hasNullMarker, Json.isStr]
              have hacc' := entriesHaveMarker_setKey acc "type" a hacc hmk hnm
              simpa [List.headD] using removeEntriesClean (setKey acc "type" a) rest hacc' hrest
          | false =>
              rw [if_neg (by simp)]
              have hmk : isMarkerEntry "type"
                  (Json.arr (value.asArr.filter
                    (fun v => !Json.beq v (Json.str "null")))) = false := by
                rw [isMarkerEntry_type_arr]
                exact hfnone
              have hnm : hasNullMarker
                  (Json.arr (value.asArr.filter
                    (fun v => !Json.beq v (Json.str "null")))) = false := by
                simpa [hasNullMarker] using listHasMarker_of_all_str _ hfall
              have hacc' := entriesHaveMarker_setKey acc "type" _ hacc hmk hnm
              exact removeEntriesClean _ rest hacc' hrest
      | false =>
          simp only [Bool.false_eq_true, if_false]
          cases hc3 : (key == "type" && Json.beq value (Json.str "null")) with
          | true =>
              rw [if_pos rfl]
              exact removeEntriesClean acc rest hacc hrest
          | false =>
              simp only [Bool.false_eq_true, if_false]
              cases hc4 : (key == "default" && value.isNull) with
              | true =>
                  rw [if_pos rfl]
                  exact removeEntriesClean acc rest hacc hrest
              | false =>
                  simp only [Bool.false_eq_true, if_false]
                  obtain ⟨v2, hv2, hv2c⟩ := removeClean value hv
                  rw [hv2]
                  have hmk : isMarkerEntry key v2 = false := by
                    simp only [isMarkerEntry, Bool.or_eq_false_iff]
                    refine ⟨⟨?_, ?_⟩, ?_⟩
                    · cases hk : (key == "type") with
                      | true =>
                          have : Json.beq value (Json.str "null") = false := by
                            cases h' : Json.beq value (Json.str "null")
                            · rfl
                            · simp [hk, h'] at hc3
                          rw [remove_isStrNull value v2 hv2, ← beq_str_null, this,
                            Bool.and_false]
                      | false => simp [hk]
                    · cases hk : (key == "type") with
                      | true =>
                          have harr : (value.isArr
                              && value.asArr.any fun v => Json.beq v (Json.str "null"))
                              = false := by
                            cases h' : (value.isArr
                                && value.asArr.any fun v => Json.beq v (Json.str "null")) with
                            | false => rfl
                            | true =>
                                rw [Bool.and_eq_true] at h'
                                simp [hk, h'.1, h'.2] at hc2
                          rw [Bool.true_and, remove_arrAnyNull value v2 hv2]
                          simp only [beq_str_null] at harr
                          exact harr
                      | false => simp [hk]
                    · cases hkd : (key == "default") with
                      | true =>
                          have hnn : value.isNull = false := by
                            cases h' : value.isNull
                            · rfl
                            · simp [hkd, h'] at hc4
                          rw [remove_isNull value v2 hv2, hnn, Bool.and_false]
                      | false => simp [hkd]
                  have hacc' := entriesHaveMarker_setKey acc key v2 hacc hmk hv2c
                  exact removeEntriesClean _ rest hacc' hrest

end

theorem envOK_okEnv (d : Json) : EnvOK (okEnv d) := by
  constructor
  · intro _
    rfl
  · intro h
    simp [okEnv] at h

theorem envOK_errEnv (m : String) (h : m ≠ "") : EnvOK (errEnv m) := by
  constructor
  · intro h'
    simp [errEnv] at h'
  · intro _
    exact ⟨rfl, m, rfl, h⟩

theorem envOK_notAuthEnv : EnvOK notAuthEnv := by
  constructor
  · intro h'
    simp [notAuthEnv] at h'
  · intro _
    exact ⟨rfl, "Not authenticated. Please authenticate first.", rfl, by decide⟩

theorem str_append_ne_empty (a b : String) (ha : a ≠ "") : a ++ b ≠ "" := by
  intro h
  apply ha
  have hd : a.data ++ b.data = [] := by
    have := congrArg String.data h
    simpa [String.data_append] using this
  exact String.ext (List.append_eq_nil.mp hd).1

theorem streq_symm (a b : String) : (a == b) = (b == a) := by
  cases h : (a == b) with
  | true =>
      have := eq_of_beq h
      subst this
      exact (beq_self_eq_true a).symm
  | false =>
      cases h2 : (b == a) with
      | false => rfl
      | true =>
          have := eq_of_beq h2
          subst this
          simp at h

theorem remapUpdateError_ne_empty (m : String) (h : m ≠ "") :
    remapUpdateError m ≠ "" := by
  unfold remapUpdateError
  split
  · exact str_append_ne_empty _ _ (by decide)
  · exact h

theorem lookup_setKeyStr_ne (l : List (String × String)) (k k' v : String)
    (h : (k' == k) = false) : (setKeyStr l k' v).lookup k = l.lookup k := by
  induction l with
  | nil =>
      have hk : (k == k') = false := streq_symm k k' ▸ h
      simp [setKeyStr, List.lookup, hk]
  | cons p rest ih =>
      obtain ⟨a, b⟩ := p
      by_cases ha : (a == k') = true
      · have hak : (k == a) = false := by
          have := eq_of_beq ha
          subst this
          rw [streq_symm]
          exact h
        simp [setKeyStr, ha, List.lookup, hak, streq_symm k k' ▸ h]
      · simp only [Bool.not_eq_true] at ha
        simp [setKeyStr, ha, List.lookup, ih]

theorem lookup_mergeHeaders (base custom : List (String × String)) (k : String)
    (h : ∀ p ∈ custom, (p.1 == k) = false) :
    (mergeHeaders base custom).lookup k = base.lookup k := by
  induction custom generalizing base with
  | nil => rfl
  | cons p rest ih =>
      obtain ⟨a, b⟩ := p
      have step : mergeHeaders base ((a, b) :: rest) = mergeHeaders (setKeyStr base a b) rest := rfl
      rw [step, ih _ (fun q hq => h q (List.mem_cons_of_mem _ hq)),
        lookup_setKeyStr_ne _ _ _ _ (h (a, b) (List.mem_cons_self _ _))]

theorem bindArgsGo_keys : ∀ (ps : List PyParam) (kwargs bound : List (String × Json)),
    bindArgsGo ps kwargs = some bound → bound.map Prod.fst = ps.map PyParam.name := by
  intro ps
  induction ps with
  | nil =>
      intro kwargs bound h
      simp only [bindArgsGo, Option.some.injEq] at h
      subst h
      rfl
  | cons p rest ih =>
      intro kwargs bound h
      simp only [bindArgsGo] at h
      rcases hp : bindParam kwargs p with _ | v <;> rw [hp] at h
      · exact absurd h (by simp)
      · rcases hr : bindArgsGo rest kwargs with _ | tail <;> rw [hr] at h
        · exact absurd h (by simp)
        · simp only [Option.some.injEq] at h
          subst h
          simp [ih kwargs tail hr]

theorem bindParam_cons_ne (p : PyParam) (k : String) (v : Json)
    (kwargs : List (String × Json)) (h : (k == p.name) = false) :
    bindParam ((k, v) :: kwargs) p = bindParam kwargs p := by
  simp [bindParam, jGet, h]

theorem bindArgsGo_cons_irrel (ps : List PyParam) (k : String) (v : Json)
    (kwargs : List (String × Json)) (h : ∀ p ∈ ps, (p.name == k) = false) :
    bindArgsGo ps ((k, v) :: kwargs) = bindArgsGo ps kwargs := by
  induction ps with
  | nil => rfl
  | cons p rest ih =>
      have hk : (k == p.name) = false :=
        streq_symm k p.name ▸ h p (List.mem_cons_self _ _)
      simp only [bindArgsGo, bindParam_cons_ne p k v kwargs hk,
        ih (fun q hq => h q (List.mem_cons_of_mem _ hq))]

theorem bindArgsGo_self : ∀ (ps : List PyParam) (bound : List (String × Json)),
    (ps.map PyParam.name).Nodup → bound.map Prod.fst = ps.map PyParam.name →
    bindArgsGo ps bound = some bound := by
  intro ps
  induction ps with
  | nil =>
      intro bound _ hkeys
      have : bound = [] := by
        cases bound with
        | nil => rfl
        | cons q t => simp at hkeys
      subst this
      rfl
  | cons p rest ih =>
      intro bound hnodup hkeys
      cases bound with
      | nil => simp at hkeys
      | cons q t =>
          obtain ⟨n, v⟩ := q
          simp only [List.map_cons, List.cons.injEq] at hkeys
          obtain ⟨hn, ht⟩ := hkeys
          subst hn
          simp only [List.map_cons, List.nodup_cons] at hnodup
          obtain ⟨hnot, hnd⟩ := hnodup
          have hrest_ne : ∀ r ∈ rest, (r.name == p.name) = false := by
            intro r hr
            have : r.name ≠ p.name := by
              intro hcontra
              exact hnot (hcontra ▸ List.mem_map_of_mem PyParam.name hr)
            simpa using this
          have h1 : bindParam ((p.name, v) :: t) p = some v := by
            simp [bindParam, jGet]
          rw [bindArgsGo, h1, bindArgsGo_cons_irrel rest p.name v t hrest_ne,
            ih t hnd ht]

/-! ## Claims -/

/-- C5 counterexample: on the schema
`\x7b"anyOf": [\x7b"type": "null"\x7d, \x7b"default": null\x7d]\x7d` the sanitizer merges the
single surviving `anyOf` branch verbatim, so the output still holds a
`"default": null` nullable-type marker — the claim's universal marker
removal is false. -/
theorem c5_counterexample :
    remove_null_from_schema (Json.obj [("anyOf", Json.arr
      [Json.obj [("type", Json.str "null")], Json.obj [("default", Json.null)]])])
      = some (Json.obj [("default", Json.null)])
    ∧ hasNullMarker (Json.obj [("default", Json.null)]) = true :=
  ⟨rfl, rfl⟩

/-- C5 (amended): for every input schema value in which no object uses an
`anyOf` key and every list-valued `type` holds only strings,
`remove_null_from_schema` succeeds and its output contains no
nullable-type marker anywhere: no `"type": "null"` entry, no `"null"`
member inside a list-valued `type`, and no `"default": null` entry.
Surviving `anyOf` branches, by contrast, are copied without further
sanitization, so markers nested inside them may remain. -/
theorem c5_remove_null_sound (s : Json) (h : schemaTame s = true) :
    ∃ t, remove_null_from_schema s = some t ∧ hasNullMarker t = false :=
  removeClean s h

/-- C5 witness: a schema with a `type: ["string", "null"]` list, a null
default and a nested null-typed property is fully sanitized. -/
theorem c5_witness :
    schemaTame (Json.obj
      [("type", Json.arr [Json.str "string", Json.str "null"]),
       ("default", Json.null),
       ("properties", Json.obj [("x", Json.obj
          [("type", Json.str "null"), ("description", Json.str "d")])])]) = true
    ∧ ∃ t, remove_null_from_schema (Json.obj
      [("type", Json.arr [Json.str "string", Json.str "null"]),
       ("default", Json.null),
       ("properties", Json.obj [("x", Json.obj
          [("type", Json.str "null"), ("description", Json.str "d")])])]) = some t
        ∧ hasNullMarker t = false :=
  ⟨rfl, c5_remove_null_sound _ rfl⟩

/-- C1 counterexample: a 304 response (non-2xx) passes
`raise_for_status` untouched, so `request` returns its body as data
instead of surfacing an error — refuting the claim's "any non-2xx status
after the retry is surfaced as an error". -/
theorem c1_counterexample :
    (OutlookClient.request ⟨some "T", none⟩
        (fun _ => ⟨304, some (Json.obj [("a", Json.num 1)]), "Not Modified"⟩)
        "GET" "/me" Kwargs.none').1
      = Except.ok (Json.obj [("a", Json.num 1)]) :=
  rfl

/-- C1 (amended): on an authenticated client, every wire call of `request`
carries the method, URL, body and query of the invocation together with a
bearer `Authorization` header (caller-supplied headers that do not
themselves set `Authorization`); when the first response is not a 401,
exactly one wire call is made, a 400-599 status raises and any other
status returns the parsed body as data; on a 401 with a successful silent
cache reload the call is retried exactly once and the outcome is decided
by the second response alone (a second 401 raises, with no third call);
on a 401 with a failed reload the authentication-expired error is raised
after the single call. -/
theorem c1_request_behavior (st : ClientState) (w : Nat → Response)
    (method endpoint : String) (kw : Kwargs) (tok : String)
    (hauth : st.access_token = some tok)
    (hnoov : ∀ hs, kw.headers = some hs → ∀ p ∈ hs, (p.1 == "Authorization") = false) :
    (∀ s ∈ (OutlookClient.request st w method endpoint kw).2.1,
        s.method = method ∧ s.url = GRAPH_API_ENDPOINT ++ endpoint
        ∧ s.json = kw.json ∧ s.params = kw.params
        ∧ ∃ t, s.headers.lookup "Authorization" = some ("Bearer " ++ t))
    ∧ ((w 0).status ≠ 401 →
        (OutlookClient.request st w method endpoint kw).2.1.length = 1
        ∧ (400 ≤ (w 0).status ∧ (w 0).status < 600 →
            ∃ m, (OutlookClient.request st w method endpoint kw).1 = Except.error m)
        ∧ ((w 0).status < 400 ∨ 600 ≤ (w 0).status →
            (OutlookClient.request st w method endpoint kw).1
              = Except.ok (w 0).jsonBody))
    ∧ ((w 0).status = 401 → st.cache_token ≠ none →
        (OutlookClient.request st w method endpoint kw).2.1.length = 2
        ∧ (OutlookClient.request st w method endpoint kw).1
            = OutlookClient.finishResponse (w 1) (GRAPH_API_ENDPOINT ++ endpoint))
    ∧ ((w 0).status = 401 → st.cache_token = none →
        (OutlookClient.request st w method endpoint kw).1
            = Except.error "Authentication expired. Please re-authenticate."
        ∧ (OutlookClient.request st w method endpoint kw).2.1.length = 1) := by
  have hlookup : ∀ t', ([("Authorization", "Bearer " ++ t'),
      ("Content-Type", "application/json")] : List (String × String)).lookup "Authorization"
        = some ("Bearer " ++ t') := by
    intro t'
    rfl
  have hhdr : (match kw.headers with
      | some custom =>
          if custom.isEmpty then
            [("Authorization", "Bearer " ++ tok), ("Content-Type", "application/json")]
          else mergeHeaders
            [("Authorization", "Bearer " ++ tok), ("Content-Type", "application/json")] custom
      | none =>
          [("Authorization", "Bearer " ++ tok),
           ("Content-Type", "application/json")]).lookup "Authorization"
        = some ("Bearer " ++ tok) := by
    cases hh : kw.headers with
    | none => exact hlookup tok
    | some custom =>
        cases hemp : custom.isEmpty with
        | true => simp [hemp, hlookup tok]
        | false =>
            simp only [hemp, Bool.false_eq_true, if_false]
            rw [lookup_mergeHeaders _ _ _ (hnoov custom hh)]
            exact hlookup tok
  unfold OutlookClient.request
  rw [hauth]
  cases h401 : ((w 0).status == 401) with
  | false =>
      have h401' : (w 0).status ≠ 401 := by simpa using h401
      refine ⟨?_, ?_, ?_, ?_⟩
      · intro s hs
        simp only [h401, Bool.false_eq_true, if_false, List.mem_singleton] at hs
        subst hs
        exact ⟨rfl, rfl, rfl, rfl, tok, hhdr⟩
      · intro _
        refine ⟨by simp [h401], ?_, ?_⟩
        · intro ⟨hge, hlt⟩
          simp only [h401, Bool.false_eq_true, if_false]
          unfold OutlookClient.finishResponse
          by_cases hc : 400 ≤ (w 0).status ∧ (w 0).status < 500
          · rw [if_pos hc]
            exact ⟨_, rfl⟩
          · rw [if_neg hc, if_pos ⟨by omega, hlt⟩]
            exact ⟨_, rfl⟩
        · intro hrange
          simp only [h401, Bool.false_eq_true, if_false]
          unfold OutlookClient.finishResponse
          rw [if_neg (by omega), if_neg (by omega)]
      · intro hc
        exact absurd hc h401'
      · intro hc
        exact absurd hc h401'
  | true =>
      cases hct : st.cache_token with
      | some tok2 =>
          refine ⟨?_, ?_, ?_, ?_⟩
          · intro s hs
            simp only [h401, if_true, hct, List.mem_cons, List.mem_singleton,
              List.not_mem_nil, or_false] at hs
            rcases hs with hs | hs
            · subst hs
              exact ⟨rfl, rfl, rfl, rfl, tok, hhdr⟩
            · subst hs
              exact ⟨rfl, rfl, rfl, rfl, tok2, hlookup tok2⟩
          · intro hne
            exact absurd (by simpa using h401) hne
          · intro _ _
            simp [h401, hct]
          · intro _ hc
            exact absurd hc (Option.some_ne_none tok2)
      | none =>
          refine ⟨?_, ?_, ?_, ?_⟩
          · intro s hs
            simp only [h401, if_true, hct, List.mem_singleton] at hs
            subst hs
            exact ⟨rfl, rfl, rfl, rfl, tok, hhdr⟩
          · intro hne
            exact absurd (by simpa using h401) hne
          · intro _ hc
            exact absurd rfl hc
          · intro _ _
            simp [h401, hct]

/-- C1 witness: a 401 first response with a warm cache leads to exactly one
retry whose 200 body is returned. -/
theorem c1_witness :
    (OutlookClient.request ⟨some "T", some "T2"⟩
        (fun n => if n == 0 then ⟨401, none, "Unauthorized"⟩
                  else ⟨200, some (Json.obj [("id", Json.str "u")]), "OK"⟩)
        "GET" "/me" Kwargs.none').2.1.length = 2
    ∧ (OutlookClient.request ⟨some "T", some "T2"⟩
        (fun n => if n == 0 then ⟨401, none, "Unauthorized"⟩
                  else ⟨200, some (Json.obj [("id", Json.str "u")]), "OK"⟩)
        "GET" "/me" Kwargs.none').1
        = Except.ok (Json.obj [("id", Json.str "u")]) :=
  ⟨((c1_request_behavior ⟨some "T", some "T2"⟩
      (fun n => if n == 0 then ⟨401, none, "Unauthorized"⟩
                else ⟨200, some (Json.obj [("id", Json.str "u")]), "OK"⟩)
      "GET" "/me" Kwargs.none' "T" rfl
      (fun hs h => by simp [Kwargs.none'] at h)).2.2.1 rfl
      (by simp)).1,
   rfl⟩

/-- C2: every embedded tool function called on an unauthenticated client
returns the `successful=false` authentication-required envelope and issues
no client call at all. -/
theorem c2_unauthenticated_short_circuit (client : ToolClient)
    (h : client.authenticated = false) (fs : FileSys) (codec : Codec) :
    (∀ subject body to_email to_name cc bcc is_html att sts uid,
        send_email client subject body to_email to_name cc bcc is_html att sts uid
          = (notAuthEnv, []))
    ∧ (∀ folder cats cid fa ha imp ir ob rge rgt rle rlt sel sgt slt sk subj sc se ss top uid,
        list_messages client folder cats cid fa ha imp ir ob rge rgt rle rlt sel
            sgt slt sk subj sc se ss top uid = (notAuthEnv, []))
    ∧ (∀ sel fil ob top sk uid,
        list_calendars client sel fil ob top sk uid = (notAuthEnv, []))
    ∧ (∀ name col hex uid,
        create_calendar client name col hex uid = (notAuthEnv, []))
    ∧ (∀ mid subj bod tor ccr bccr imp uid,
        update_email client mid subj bod tor ccr bccr imp uid = (notAuthEnv, []))
    ∧ (∀ fid uid, delete_mail_folder client fid uid = (notAuthEnv, []))
    ∧ (∀ eid nm ot cb fp tc it uid,
        add_event_attachment client fs codec eid nm ot cb fp tc it uid
          = (notAuthEnv, []))
    ∧ (∀ mid aid fn uid,
        download_outlook_attachment client fs codec mid aid fn uid
          = (notAuthEnv, [])) := by
  obtain ⟨auth, outc⟩ := client
  have h' : auth = false := h
  subst h'
  exact ⟨fun _ _ _ _ _ _ _ _ _ _ => rfl,
    fun _ _ _ _ _ _ _ _ _ _ _ _ _ _ _ _ _ _ _ _ _ _ => rfl,
    fun _ _ _ _ _ _ => rfl,
    fun _ _ _ _ => rfl,
    fun _ _ _ _ _ _ _ _ => rfl,
    fun _ _ => rfl,
    fun _ _ _ _ _ _ _ _ => rfl,
    fun _ _ _ _ => rfl⟩

/-- C2 witness: `send_email` and `list_calendars` on a concrete
unauthenticated client. -/
theorem c2_witness :
    (⟨false, fun _ => Except.ok Json.null⟩ : ToolClient).authenticated = false
    ∧ send_email ⟨false, fun _ => Except.ok Json.null⟩ "Hi" "Test" "a@b.com"
        none none none none none none none = (notAuthEnv, [])
    ∧ list_calendars ⟨false, fun _ => Except.ok Json.null⟩ none none none none none none
        = (notAuthEnv, []) :=
  ⟨rfl,
   (c2_unauthenticated_short_circuit ⟨false, fun _ => Except.ok Json.null⟩ rfl
      ⟨fun _ => false, fun _ => Except.error "io", fun _ _ => Except.ok ()⟩
      ⟨id, fun _ => Except.error "bad base64"⟩).1
      "Hi" "Test" "a@b.com" none none none none none none none,
   (c2_unauthenticated_short_circuit ⟨false, fun _ => Except.ok Json.null⟩ rfl
      ⟨fun _ => false, fun _ => Except.error "io", fun _ _ => Except.ok ()⟩
      ⟨id, fun _ => Except.error "bad base64"⟩).2.2.1 none none none none none none⟩

/-- C3: every envelope any embedded tool returns — for every argument list,
authentication state and client/file-system/codec outcome (with exception
messages non-empty, as the runtime's are) — carries an `error` field exactly
when `successful` is false, and then a non-empty message with empty data;
successful envelopes carry no `error` field. -/
theorem c3_envelope_invariant (client : ToolClient) (fs : FileSys) (codec : Codec)
    (hc : NonEmptyErrors client) (hfs : CleanFS fs) (hcodec : CleanCodec codec) :
    (∀ subject body to_email to_name cc bcc is_html att sts uid,
        EnvOK (send_email client subject body to_email to_name cc bcc is_html att sts uid).1)
    ∧ (∀ folder cats cid fa ha imp ir ob rge rgt rle rlt sel sgt slt sk subj sc se ss top uid,
        EnvOK (list_messages client folder cats cid fa ha imp ir ob rge rgt rle rlt sel
            sgt slt sk subj sc se ss top uid).1)
    ∧ (∀ sel fil ob top sk uid, EnvOK (list_calendars client sel fil ob top sk uid).1)
    ∧ (∀ name col hex uid, EnvOK (create_calendar client name col hex uid).1)
    ∧ (∀ mid subj bod tor ccr bccr imp uid,
        EnvOK (update_email client mid subj bod tor ccr bccr imp uid).1)
    ∧ (∀ fid uid, EnvOK (delete_mail_folder client fid uid).1)
    ∧ (∀ eid nm ot cb fp tc it uid,
        EnvOK (add_event_attachment client fs codec eid nm ot cb fp tc it uid).1)
    ∧ (∀ mid aid fn uid,
        EnvOK (download_outlook_attachment client fs codec mid aid fn uid).1) := by
  refine ⟨?_, ?_, ?_, ?_, ?_, ?_, ?_, ?_⟩
  · intro subject body to_email to_name cc bcc is_html att sts uid
    unfold send_email
    cases hA : client.authenticated with
    | false => exact envOK_notAuthEnv
    | true =>
        cases ho : client.outcomes 0 with
        | error e => exact envOK_errEnv e (hc 0 e ho)
        | ok j => exact envOK_okEnv _
  · intro folder cats cid fa ha imp ir ob rge rgt rle rlt sel sgt slt sk subj sc se ss top uid
    unfold list_messages
    cases hA : client.authenticated with
    | false => exact envOK_notAuthEnv
    | true =>
        cases ho : client.outcomes 0 with
        | error e => exact envOK_errEnv e (hc 0 e ho)
        | ok j => exact envOK_okEnv _
  · intro sel fil ob top sk uid
    unfold list_calendars
    cases hA : client.authenticated with
    | false => exact envOK_notAuthEnv
    | true =>
        cases ho : client.outcomes 0 with
        | error e => exact envOK_errEnv e (hc 0 e ho)
        | ok j => exact envOK_okEnv _
  · intro name col hex uid
    unfold create_calendar
    cases hA : client.authenticated with
    | false => exact envOK_notAuthEnv
    | true =>
        cases ho : client.outcomes 0 with
        | error e => exact envOK_errEnv e (hc 0 e ho)
        | ok j => exact envOK_okEnv _
  · intro mid subj bod tor ccr bccr imp uid
    unfold update_email
    cases hA : client.authenticated with
    | false => exact envOK_notAuthEnv
    | true =>
        simp only [Bool.not_true, Bool.false_eq_true, if_false]
        split
        · exact envOK_errEnv _ (by decide)
        · split
          case _ m heq =>
              have hm : m = bodyFormatMsg := by
                cases bod with
                | none => exact absurd heq (by simp)
                | some j =>
                    cases j with
                    | obj o =>
                        simp only [] at heq
                        split at heq
                        · exact absurd heq (by simp)
                        · simpa [eq_comm] using heq
                    | null => simpa [eq_comm] using heq
                    | bool b => simpa [eq_comm] using heq
                    | num n => simpa [eq_comm] using heq
                    | str s => simpa [eq_comm] using heq
                    | arr xs => simpa [eq_comm] using heq
              subst hm
              exact envOK_errEnv _ (by decide)
          case _ bodyPart heq =>
              split
              · exact envOK_errEnv _ (by decide)
              · cases h1 : client.outcomes 1 with
                | ok r => exact envOK_okEnv _
                | error e => exact envOK_errEnv _ (remapUpdateError_ne_empty e (hc 1 e h1))
  · intro fid uid
    unfold delete_mail_folder
    cases hA : client.authenticated with
    | false => exact envOK_notAuthEnv
    | true =>
        cases ho : client.outcomes 0 with
        | error e => exact envOK_errEnv e (hc 0 e ho)
        | ok j => exact envOK_okEnv _
  · intro eid nm ot cb fp tc it uid
    unfold add_event_attachment
    cases hA : client.authenticated with
    | false => exact envOK_notAuthEnv
    | true =>
        cases fp with
        | some p =>
            dsimp only
            cases hex : fs.pathExists p with
            | false =>
                exact envOK_errEnv ("File not found: " ++ p)
                  (str_append_ne_empty _ _ (by decide))
            | true =>
                cases hrf : fs.readFile p with
                | error e =>
                    exact envOK_errEnv ("Error reading file: " ++ e)
                      (str_append_ne_empty _ _ (by decide))
                | ok content =>
                    cases h0 : client.outcomes 0 with
                    | ok r => exact envOK_okEnv r
                    | error e => exact envOK_errEnv e (hc 0 e h0)
        | none =>
            cases tc with
            | some t =>
                cases h0 : client.outcomes 0 with
                | ok r => exact envOK_okEnv r
                | error e => exact envOK_errEnv e (hc 0 e h0)
            | none =>
                cases h0 : client.outcomes 0 with
                | ok r => exact envOK_okEnv r
                | error e => exact envOK_errEnv e (hc 0 e h0)
  · intro mid aid fn uid
    unfold download_outlook_attachment
    cases hA : client.authenticated with
    | false => exact envOK_notAuthEnv
    | true =>
        cases h0 : client.outcomes 0 with
        | error e => exact envOK_errEnv e (hc 0 e h0)
        | ok j =>
            cases j with
            | obj o =>
                dsimp only
                cases hk : jHasKey o "contentBytes" with
                | false => exact envOK_errEnv noContentBytesMsg (by decide)
                | true =>
                    cases hgv : jGetD o "contentBytes" Json.null with
                    | str s =>
                        dsimp only
                        cases hdec : codec.b64decode s with
                        | error e => exact envOK_errEnv e (hcodec s e hdec)
                        | ok bytes =>
                            dsimp only
                            cases hw : fs.writeFile fn bytes with
                            | error e => exact envOK_errEnv e (hfs fn bytes e hw)
                            | ok u =>
                                exact envOK_okEnv (Json.obj
                                  [("file_name", Json.str fn),
                                   ("size", Json.num (bytes.length : Int)),
                                   ("content_type", jGetD o "contentType" (Json.str "unknown")),
                                   ("name", jGetD o "name" (Json.str fn))])
                    | null =>
                        exact envOK_errEnv
                          "argument should be a bytes-like object or ASCII string" (by decide)
                    | bool b =>
                        exact envOK_errEnv
                          "argument should be a bytes-like object or ASCII string" (by decide)
                    | num n =>
                        exact envOK_errEnv
                          "argument should be a bytes-like object or ASCII string" (by decide)
                    | arr xs =>
                        exact envOK_errEnv
                          "argument should be a bytes-like object or ASCII string" (by decide)
                    | obj o2 =>
                        exact envOK_errEnv
                          "argument should be a bytes-like object or ASCII string" (by decide)
            | arr xs =>
                dsimp only
                cases hmem : xs.any (fun v => Json.beq v (Json.str "contentBytes")) with
                | false => exact envOK_errEnv noContentBytesMsg (by decide)
                | true =>
                    exact envOK_errEnv
                      "list indices must be integers or slices, not str" (by decide)
            | str s =>
                dsimp only
                cases hss : strContainsSub s "contentBytes" with
                | false => exact envOK_errEnv noContentBytesMsg (by decide)
                | true => exact envOK_errEnv "string indices must be integers" (by decide)
            | null => exact envOK_errEnv "argument of type is not iterable" (by decide)
            | bool b => exact envOK_errEnv "argument of type is not iterable" (by decide)
            | num n => exact envOK_errEnv "argument of type is not iterable" (by decide)

/-- C3 witness: a concrete failing client with a non-empty exception
message yields a well-formed failure envelope. -/
theorem c3_witness :
    NonEmptyErrors ⟨true, fun _ => Except.error "boom"⟩
    ∧ EnvOK (send_email ⟨true, fun _ => Except.error "boom"⟩ "Hi" "Test" "a@b.com"
        none none none none none none none).1 := by
  have hne : NonEmptyErrors ⟨true, fun _ => Except.error "boom"⟩ := by
    intro n m h
    cases h
    decide
  refine ⟨hne, ?_⟩
  exact (c3_envelope_invariant ⟨true, fun _ => Except.error "boom"⟩
      ⟨fun _ => true, fun _ => Except.ok "data", fun _ _ => Except.ok ()⟩
      ⟨id, fun s => Except.ok s⟩ hne
      (fun f c m h => absurd h (by simp))
      (fun s m h => absurd h (by simp))).1
    "Hi" "Test" "a@b.com" none none none none none none none

/-- C4 counterexample: an exception in `update_email`'s preliminary
`isDraft` check is swallowed by the inner `try`, and when the PATCH then
succeeds the tool returns `successful=true` — so not every exception
raised during execution is converted into a `successful=false`
envelope. -/
theorem c4_counterexample :
    (⟨true, fun n => if n == 0 then Except.error "connection reset"
        else Except.ok (Json.obj [])⟩ : ToolClient).outcomes 0
      = Except.error "connection reset"
    ∧ (update_email ⟨true, fun n => if n == 0 then Except.error "connection reset"
          else Except.ok (Json.obj [])⟩
        "m1" (some "S") none none none none none none).1
      = okEnv (Json.obj []) :=
  ⟨rfl, rfl⟩

/-- C4 (amended): every exception raised during a tool call is caught
inside the tool function — none propagates — and it is converted into a
`successful=false` envelope carrying the exception's message, with one
exception: a failure of `update_email`'s preliminary `isDraft` check is
swallowed and execution continues (last conjunct), so a later successful
PATCH yields `successful=true`. -/
theorem c4_exceptions_converted (client : ToolClient) (fs : FileSys) (codec : Codec)
    (hA : client.authenticated = true) :
    (∀ subject body to_email to_name cc bcc is_html att sts uid m,
        client.outcomes 0 = Except.error m →
        (send_email client subject body to_email to_name cc bcc is_html att sts uid).1
          = errEnv m)
    ∧ (∀ folder cats cid fa ha imp ir ob rge rgt rle rlt sel sgt slt sk subj sc se ss top uid m,
        client.outcomes 0 = Except.error m →
        (list_messages client folder cats cid fa ha imp ir ob rge rgt rle rlt sel
            sgt slt sk subj sc se ss top uid).1 = errEnv m)
    ∧ (∀ sel fil ob top sk uid m, client.outcomes 0 = Except.error m →
        (list_calendars client sel fil ob top sk uid).1 = errEnv m)
    ∧ (∀ name col hex uid m, client.outcomes 0 = Except.error m →
        (create_calendar client name col hex uid).1 = errEnv m)
    ∧ (∀ fid uid m, client.outcomes 0 = Except.error m →
        (delete_mail_folder client fid uid).1 = errEnv m)
    ∧ (∀ mid aid fn uid m, client.outcomes 0 = Except.error m →
        (download_outlook_attachment client fs codec mid aid fn uid).1 = errEnv m)
    ∧ (∀ eid nm ot cb tc it uid p m,
        fs.pathExists p = true → fs.readFile p = Except.error m →
        (add_event_attachment client fs codec eid nm ot cb (some p) tc it uid).1
          = errEnv ("Error reading file: " ++ m))
    ∧ (∀ mid s uid e0 m, client.outcomes 0 = Except.error e0 →
        client.outcomes 1 = Except.error m →
        (update_email client mid (some s) none none none none none uid).1
          = errEnv (remapUpdateError m))
    ∧ (∀ mid s uid e0 r, client.outcomes 0 = Except.error e0 →
        client.outcomes 1 = Except.ok r →
        (update_email client mid (some s) none none none none none uid).1
          = okEnv r) := by
  refine ⟨?_, ?_, ?_, ?_, ?_, ?_, ?_, ?_, ?_⟩
  · intro subject body to_email to_name cc bcc is_html att sts uid m hm
    unfold send_email
    rw [hA, hm]
    rfl
  · intro folder cats cid fa ha imp ir ob rge rgt rle rlt sel sgt slt sk subj sc se ss top uid m hm
    unfold list_messages
    rw [hA, hm]
    rfl
  · intro sel fil ob top sk uid m hm
    unfold list_calendars
    rw [hA, hm]
    rfl
  · intro name col hex uid m hm
    unfold create_calendar
    rw [hA, hm]
    rfl
  · intro fid uid m hm
    unfold delete_mail_folder
    rw [hA, hm]
    rfl
  · intro mid aid fn uid m hm
    unfold download_outlook_attachment
    rw [hA, hm]
    rfl
  · intro eid nm ot cb tc it uid p m hex hrf
    unfold add_event_attachment
    rw [hA]
    dsimp only
    rw [hex, hrf]
    rfl
  · intro mid s uid e0 m h0 h1
    unfold update_email
    rw [hA, h0, h1]
    rfl
  · intro mid s uid e0 r h0 h1
    unfold update_email
    rw [hA, h0, h1]
    rfl

/-- C4 witness: a request exception in `send_email` becomes the failure
envelope with the same message, and an `isDraft`-check exception followed
by a PATCH exception surfaces the PATCH failure. -/
theorem c4_witness :
    (send_email ⟨true, fun _ => Except.error "boom"⟩ "Hi" "Test" "a@b.com"
        none none none none none none none).1 = errEnv "boom"
    ∧ (update_email ⟨true, fun _ => Except.error "boom"⟩ "m1" (some "S")
        none none none none none none).1 = errEnv (remapUpdateError "boom") :=
  ⟨(c4_exceptions_converted ⟨true, fun _ => Except.error "boom"⟩
      ⟨fun _ => true, fun _ => Except.ok "data", fun _ _ => Except.ok ()⟩
      ⟨id, fun s => Except.ok s⟩ rfl).1
      "Hi" "Test" "a@b.com" none none none none none none none "boom" rfl,
   (c4_exceptions_converted ⟨true, fun _ => Except.error "boom"⟩
      ⟨fun _ => true, fun _ => Except.ok "data", fun _ _ => Except.ok ()⟩
      ⟨id, fun s => Except.ok s⟩ rfl).2.2.2.2.2.2.2.1
      "m1" "S" none "boom" "boom" rfl rfl⟩

/-- C7: on an authenticated client, the scenario call issues exactly one
client call, a POST to `/me/sendMail`; the result never reads the response
body — for every success payload `j` the envelope is the fixed success
message. -/
theorem c7_send_email_scenario (client : ToolClient) (h : client.authenticated = true) :
    (send_email client "Hi" "Test" "a@b.com" none none none none none none none).2
      = [⟨"POST", "/me/sendMail", some (Json.obj [("message", Json.obj
          [("subject", Json.str "Hi"),
           ("body", Json.obj [("contentType", Json.str "Text"), ("content", Json.str "Test")]),
           ("toRecipients", Json.arr [Json.obj [("emailAddress", Json.obj
              [("address", Json.str "a@b.com"), ("name", Json.str "a@b.com")])]])])]),
          none, none⟩]
    ∧ ∀ j, client.outcomes 0 = Except.ok j →
        (send_email client "Hi" "Test" "a@b.com" none none none none none none none).1
          = ⟨true, Json.obj [("message", Json.str "Email sent successfully")], none⟩ := by
  constructor
  · unfold send_email
    rw [h]
    rfl
  · intro j hj
    unfold send_email
    rw [h, hj]
    rfl

/-- C7 witness: the scenario on a concrete client whose call succeeds. -/
theorem c7_witness :
    (⟨true, fun _ => Except.ok Json.null⟩ : ToolClient).authenticated = true
    ∧ (send_email ⟨true, fun _ => Except.ok Json.null⟩ "Hi" "Test" "a@b.com"
        none none none none none none none).1
      = ⟨true, Json.obj [("message", Json.str "Email sent successfully")], none⟩ :=
  ⟨rfl, (c7_send_email_scenario ⟨true, fun _ => Except.ok Json.null⟩ rfl).2 Json.null rfl⟩

/-- C8: `list_messages(folder="inbox", is_read=False)` constructs a single
GET whose `$filter` is exactly the clause `isRead eq false` (so it contains
it) and whose endpoint path ends in `/mailFolders/inbox/messages`. -/
theorem c8_list_messages_scenario (client : ToolClient) (h : client.authenticated = true) :
    (list_messages client (some "inbox") none none none none none (some false)
        none none none none none none none none none none none none none none none).2
      = [⟨"GET", "/me/mailFolders/inbox/messages", none,
          some [("$filter", Json.str "isRead eq false")], none⟩]
    ∧ strEndsWith "/me/mailFolders/inbox/messages" "/mailFolders/inbox/messages" = true
    ∧ strContainsSub "isRead eq false" "isRead eq false" = true := by
  refine ⟨?_, by decide, by decide⟩
  unfold list_messages
  rw [h]
  rfl

/-- C8 witness: the scenario on a concrete client. -/
theorem c8_witness :
    (list_messages ⟨true, fun _ => Except.ok Json.null⟩ (some "inbox") none none
        none none none (some false) none none none none none none none none none
        none none none none none none).2
      = [⟨"GET", "/me/mailFolders/inbox/messages", none,
          some [("$filter", Json.str "isRead eq false")], none⟩] :=
  (c8_list_messages_scenario ⟨true, fun _ => Except.ok Json.null⟩ rfl).1

/-- C9 counterexample: with `to_name` left unset, the body `send_email`
constructs still carries a `"name"` key (filled with `to_email`) inside
`toRecipients[0].emailAddress` — so an unset optional parameter is not
always absent from the request. -/
theorem c9_counterexample :
    (send_email ⟨true, fun _ => Except.ok Json.null⟩ "Hi" "Test" "a@b.com"
        none none none none none none none).2
      = [⟨"POST", "/me/sendMail", some (Json.obj [("message", Json.obj
          [("subject", Json.str "Hi"),
           ("body", Json.obj [("contentType", Json.str "Text"), ("content", Json.str "Test")]),
           ("toRecipients", Json.arr [Json.obj [("emailAddress", Json.obj
              [("address", Json.str "a@b.com"), ("name", Json.str "a@b.com")])]])])]),
          none, none⟩]
    ∧ jHasKey [("address", Json.str "a@b.com"), ("name", Json.str "a@b.com")] "name" = true :=
  ⟨rfl, rfl⟩

/-- C9 (amended): with every optional parameter left at its default, the
requests the embedded tools construct contain no key for any unset
parameter and no null values — the single exception being `send_email`,
which fills the `"name"` key with `to_email` when `to_name` is unset. -/
theorem c9_optional_params_omitted (client : ToolClient) (fs : FileSys)
    (codec : Codec) (h : client.authenticated = true) :
    (∀ subject body to_email,
        (send_email client subject body to_email none none none none none none none).2
          = [⟨"POST", "/me/sendMail", some (Json.obj [("message", Json.obj
              [("subject", Json.str subject),
               ("body", Json.obj
                  [("contentType", Json.str "Text"), ("content", Json.str body)]),
               ("toRecipients", Json.arr [Json.obj [("emailAddress", Json.obj
                  [("address", Json.str to_email), ("name", Json.str to_email)])]])])]),
              none, none⟩])
    ∧ (list_messages client none none none none none none none none none none
          none none none none none none none none none none none none).2
        = [⟨"GET", "/me/messages", none, none, none⟩]
    ∧ (list_calendars client none none none none none none).2
        = [⟨"GET", "/me/calendars", none, none, none⟩]
    ∧ (∀ name, (create_calendar client name none none none).2
        = [⟨"POST", "/me/calendars", some (Json.obj [("name", Json.str name)]), none, none⟩])
    ∧ (∀ eid nm ot, (add_event_attachment client fs codec eid nm ot none none none none none).2
        = [⟨"POST", "/me/events/" ++ eid ++ "/attachments",
            some (Json.obj [("@odata.type", Json.str ot), ("name", Json.str nm)]),
            none, none⟩]) := by
  refine ⟨?_, ?_, ?_, ?_, ?_⟩
  · intro subject body to_email
    unfold send_email
    rw [h]
    rfl
  · unfold list_messages
    rw [h]
    rfl
  · unfold list_calendars
    rw [h]
    rfl
  · intro name
    unfold create_calendar
    rw [h]
    rfl
  · intro eid nm ot
    unfold add_event_attachment
    rw [h]
    rfl

/-- C9 witness: `create_calendar` with only its required argument issues a
POST whose body holds the `name` key alone. -/
theorem c9_witness :
    (create_calendar ⟨true, fun _ => Except.ok Json.null⟩ "Cal" none none none).2
      = [⟨"POST", "/me/calendars", some (Json.obj [("name", Json.str "Cal")]),
          none, none⟩] :=
  (c9_optional_params_omitted ⟨true, fun _ => Except.ok Json.null⟩
    ⟨fun _ => true, fun _ => Except.ok "data", fun _ _ => Except.ok ()⟩
    ⟨id, fun s => Except.ok s⟩ rfl).2.2.2.1 "Cal"

/-- C10 counterexample: with all update fields unset but the preliminary
check reporting a non-draft message, `update_email` returns the
cannot-update-received-message error, not the at-least-one-field message
the claim requires. -/
theorem c10_counterexample :
    update_email ⟨true, fun _ => Except.ok (Json.obj [])⟩ "m1"
        none none none none none none none
      = (errEnv cannotUpdateReceivedMsg,
         [⟨"GET", "/me/messages/m1?$select=isDraft", none, none, none⟩])
    ∧ cannotUpdateReceivedMsg ≠ atLeastOneFieldMsg :=
  ⟨rfl, by decide⟩

/-- C10 (amended): with all update fields unset, `update_email` on an
authenticated client always returns `successful=false` after issuing only
the preliminary GET (never a PATCH, so the message is unchanged); the
error is the at-least-one-field message unless the check reports a
non-draft message, in which case it is the cannot-update-received
error. -/
theorem c10_update_email_requires_fields (client : ToolClient)
    (h : client.authenticated = true) (mid uid : String) :
    update_email client mid none none none none none none (some uid)
      = (errEnv (match client.outcomes 0 with
          | Except.ok (Json.obj o) =>
              if !pyTruthy (jGetD o "isDraft" (Json.bool false)) then
                cannotUpdateReceivedMsg
              else atLeastOneFieldMsg
          | _ => atLeastOneFieldMsg),
         [⟨"GET", "/" ++ userOf (some uid) ++ "/messages/" ++ mid ++ "?$select=isDraft",
           none, none, none⟩]) := by
  unfold update_email
  rw [h]
  cases h0 : client.outcomes 0 with
  | error e => rfl
  | ok j =>
      cases j with
      | obj o =>
          dsimp only
          cases hb : pyTruthy (jGetD o "isDraft" (Json.bool false)) with
          | false => rfl
          | true => rfl
      | null => rfl
      | bool b => rfl
      | num n => rfl
      | str s => rfl
      | arr xs => rfl

/-- C10 witness: a concrete client whose check reports a draft gets the
at-least-one-field error after the single GET. -/
theorem c10_witness :
    update_email ⟨true, fun _ => Except.ok (Json.obj [("isDraft", Json.bool true)])⟩
        "m1" none none none none none none (some "me")
      = (errEnv atLeastOneFieldMsg,
         [⟨"GET", "/me/messages/m1?$select=isDraft", none, none, none⟩]) :=
  (c10_update_email_requires_fields
    ⟨true, fun _ => Except.ok (Json.obj [("isDraft", Json.bool true)])⟩
    rfl "m1" "me").trans rfl

/-- C6: for every tool function with a `client` parameter (and no duplicate
parameter names — Python signatures cannot repeat a name), the generated
wrapper exposes exactly the function's parameters minus `client`, with the
same names and defaults, and calling it on any keyword-argument assignment
returns exactly what the tool function returns with `client` bound to the
lazily-constructed singleton and all other arguments forwarded unchanged
(both sides also fail on the same malformed assignments). -/
theorem c6_dynamic_wrapper_equiv {C : Type} (newClient : C) (f : PyFunc C)
    (hcl : f.params.any (fun p => p.name == "client") = true)
    (hnodup : (f.params.map PyParam.name).Nodup) :
    (create_dynamic_wrapper newClient f).params
        = f.params.filter (fun p => !(p.name == "client"))
    ∧ ∀ st kwargs,
        ((create_dynamic_wrapper newClient f).call st kwargs).1
          = PyFunc.callKw f (get_client newClient st).1 kwargs := by
  refine ⟨rfl, ?_⟩
  intro st kwargs
  cases hb : bindArgs (f.params.filter (fun p => !(p.name == "client"))) kwargs with
  | none =>
      have hR : PyFunc.callKw f (get_client newClient st).1 kwargs = none := by
        unfold PyFunc.callKw
        split
        · rw [hb]
          rfl
        · rfl
      have hL : ((create_dynamic_wrapper newClient f).call st kwargs).1 = none := by
        simp only [create_dynamic_wrapper]
        rw [hb]
      rw [hL, hR]
  | some bound =>
      have hsplit : bindArgsGo (f.params.filter (fun p => !(p.name == "client"))) kwargs
            = some bound
          ∧ kwargs.all (fun q => (f.params.filter
              (fun p => !(p.name == "client"))).any (fun p => p.name == q.1)) = true := by
        have hb' := hb
        unfold bindArgs at hb'
        by_cases hg : kwargs.all (fun q => (f.params.filter
            (fun p => !(p.name == "client"))).any (fun p => p.name == q.1)) = true
        · rw [if_pos hg] at hb'
          exact ⟨hb', hg⟩
        · rw [if_neg hg] at hb'
          exact absurd hb' (by simp)
      obtain ⟨hgo, hguard⟩ := hsplit
      have hkeys := bindArgsGo_keys _ _ _ hgo
      have hfilter_all : ∀ p ∈ f.params.filter (fun p => !(p.name == "client")),
          (p.name == "client") = false := by
        intro p hp
        simpa using (List.mem_filter.mp hp).2
      have hkw_nocl : kwargs.all (fun q => !(q.1 == "client")) = true := by
        rw [List.all_eq_true] at hguard ⊢
        intro q hq
        obtain ⟨p, hp, hpq⟩ := List.any_eq_true.mp (hguard q hq)
        have h2 := eq_of_beq hpq
        have h1 := hfilter_all p hp
        rw [← h2]
        simp [h1]
      have hnodup_w : ((f.params.filter
          (fun p => !(p.name == "client"))).map PyParam.name).Nodup := by
        have hsl : (f.params.filter (fun p => !(p.name == "client"))).Sublist f.params :=
          List.filter_sublist f.params
        exact (List.Sublist.map PyParam.name hsl).nodup hnodup
      have hbound_mem : ∀ q ∈ bound, ∃ p, p ∈ f.params.filter
          (fun p => !(p.name == "client")) ∧ p.name = q.1 := by
        intro q hq
        have hmm : q.1 ∈ (f.params.filter
            (fun p => !(p.name == "client"))).map PyParam.name := by
          rw [← hkeys]
          exact List.mem_map_of_mem Prod.fst hq
        obtain ⟨p, hp, hpn⟩ := List.mem_map.mp hmm
        exact ⟨p, hp, hpn⟩
      have hbound_nocl : bound.all (fun q => !(q.1 == "client")) = true := by
        rw [List.all_eq_true]
        intro q hq
        obtain ⟨p, hp, hpn⟩ := hbound_mem q hq
        have h1 := hfilter_all p hp
        rw [← hpn]
        simp [h1]
      have hbound_guard : bound.all (fun q => (f.params.filter
          (fun p => !(p.name == "client"))).any (fun p => p.name == q.1)) = true := by
        rw [List.all_eq_true]
        intro q hq
        obtain ⟨p, hp, hpn⟩ := hbound_mem q hq
        rw [List.any_eq_true]
        exact ⟨p, hp, by simp [hpn]⟩
      have hrebind : bindArgs (f.params.filter (fun p => !(p.name == "client"))) bound
          = some bound := by
        unfold bindArgs
        rw [if_pos hbound_guard]
        exact bindArgsGo_self _ _ hnodup_w hkeys
      have hRkw : PyFunc.callKw f (get_client newClient st).1 kwargs
          = some (f.body (get_client newClient st).1 bound) := by
        unfold PyFunc.callKw
        rw [if_pos (by simp [hcl, hkw_nocl]), hb]
        rfl
      have hRbound : PyFunc.callKw f (get_client newClient st).1 bound
          = some (f.body (get_client newClient st).1 bound) := by
        unfold PyFunc.callKw
        rw [if_pos (by simp [hcl, hbound_nocl]), hrebind]
        rfl
      have hL : ((create_dynamic_wrapper newClient f).call st kwargs).1
          = PyFunc.callKw f (get_client newClient st).1 bound := by
        simp only [create_dynamic_wrapper]
        rw [hb]
      rw [hL, hRbound, hRkw]

/-- C6 witness: a three-parameter function (client, required `x`, `y`
defaulting to 5) wrapped and called with only `x`: the wrapper agrees with
the direct call and fills the default. -/
theorem c6_witness :
    (([⟨"client", none⟩, ⟨"x", none⟩, ⟨"y", some (Json.num 5)⟩] :
        List PyParam).any (fun p => p.name == "client") = true)
    ∧ (((create_dynamic_wrapper (Json.str "client0")
          (⟨[⟨"client", none⟩, ⟨"x", none⟩, ⟨"y", some (Json.num 5)⟩],
            fun c args => ⟨true, Json.obj (("client", c) :: args), none⟩⟩ :
            PyFunc Json)).call none [("x", Json.str "a")]).1
        = PyFunc.callKw
            ⟨[⟨"client", none⟩, ⟨"x", none⟩, ⟨"y", some (Json.num 5)⟩],
             fun c args => ⟨true, Json.obj (("client", c) :: args), none⟩⟩
            (get_client (Json.str "client0") (none : Option Json)).1
            [("x", Json.str "a")])
    ∧ (((create_dynamic_wrapper (Json.str "client0")
          (⟨[⟨"client", none⟩, ⟨"x", none⟩, ⟨"y", some (Json.num 5)⟩],
            fun c args => ⟨true, Json.obj (("client", c) :: args), none⟩⟩ :
            PyFunc Json)).call none [("x", Json.str "a")]).1
        = some ⟨true, Json.obj
            [("client", Json.str "client0"), ("x", Json.str "a"), ("y", Json.num 5)],
            none⟩) :=
  ⟨rfl,
   (c6_dynamic_wrapper_equiv (Json.str "client0")
      ⟨[⟨"client", none⟩, ⟨"x", none⟩, ⟨"y", some (Json.num 5)⟩],
       fun c args => ⟨true, Json.obj (("client", c) :: args), none⟩⟩
      rfl (by decide)).2 none [("x", Json.str "a")],
   rfl⟩
